import Mathlib

/-
Verification development for the TubeTune core: a shallow embedding of the
job scheduler (the enhanced DownloadQueue class), the proxy rotator
(src/core/ProxyRotator.js), the progress aggregation and the queue-state
persistence logic, together with proofs and refutations of the spec's
testable properties.

Modelling conventions:
- JavaScript numbers that hold ids, percentages and rates are modelled as
  rationals; Date.now() ticks and list lengths as naturals.
- Date-valued bookkeeping fields that never influence control flow
  (addedAt, startedAt, completedAt, failedAt, lastSaved) are omitted.
- Console output and event emission are observational only and are omitted;
  the emitted aggregate payload is modelled by the AggregateView structure.
- External effects (Math.random, Date.now, file-system reads and writes,
  the collaborator's success or failure) are passed in as explicit inputs.
- The await inside processNext suspends: the synchronous prefix of
  processNext (the guard, the dequeue and the insertion into the processing
  map) and the resolution continuation (the code after the await) are
  modelled as separate atomic steps, matching the event-loop semantics.
-/

namespace TubeTune

/-! ## Config.js constants -/

def MAX_CONCURRENT_DOWNLOADS : Nat := 2

def MAX_ATTEMPTS : Nat := 3

def DEFAULT_FORMAT : String := "mp3"

def DEFAULT_QUALITY : String := "best"

/-! ## Job data model -/

inductive Status where
  | queued
  | processing
  | completed
  | failed
deriving DecidableEq

structure Item where
  id : ℚ
  url : String
  title : String
  format : String
  quality : String
  attempts : Nat
  maxAttempts : Nat
  status : Status
  size : Nat
  downloadedSize : Nat
deriving DecidableEq

/-- A record on the failed list: the spread of the item plus the captured
error text, from the source line pushing the item and error together. -/
structure FailedItem where
  item : Item
  error : String
deriving DecidableEq

/-- Insertion-ordered association list modelling a JavaScript Map.
mapSet replaces the value when the key is present and appends otherwise,
as Map.prototype.set does. -/
def mapSet {α : Type} (m : List (ℚ × α)) (k : ℚ) (v : α) : List (ℚ × α) :=
  if m.any (fun e => decide (e.1 = k)) then
    m.map (fun e => if e.1 = k then (k, v) else e)
  else m ++ [(k, v)]

/-- Map.prototype.delete: removes the entry stored under the key. -/
def mapDelete {α : Type} (m : List (ℚ × α)) (k : ℚ) : List (ℚ × α) :=
  m.filter (fun e => decide (e.1 ≠ k))

/-! ## Scheduler state (the DownloadQueue class fields) -/

structure DownloadQueue where
  queue : List Item
  processing : List (ℚ × Item)
  completed : List Item
  failed : List FailedItem
  maxConcurrent : Nat
  defaultFormat : String
  defaultQuality : String
  startTime : Nat
deriving DecidableEq

/-- The constructor's field initialisation (directories, timers and the
startup load are external effects handled separately). -/
def initState (now : Nat) : DownloadQueue :=
  { queue := []
    processing := []
    completed := []
    failed := []
    maxConcurrent := MAX_CONCURRENT_DOWNLOADS
    defaultFormat := DEFAULT_FORMAT
    defaultQuality := DEFAULT_QUALITY
    startTime := now }

/-! ## addUrl -/

structure AddOptions where
  title : Option String
  format : Option String
  quality : Option String

/-- The id expression from addUrl. -/
def makeId (now : Nat) (rand : ℚ) : ℚ := (now : ℚ) + rand

/-- The item literal built by addUrl.  The destructuring defaults use the
scheduler's default format and quality; a null or empty title falls back
to the word Unknown via the falsy check in the literal. -/
def mkItem (s : DownloadQueue) (now : Nat) (rand : ℚ) (url : String)
    (o : AddOptions) : Item :=
  { id := makeId now rand
    url := url
    title := match o.title with
      | none => "Unknown"
      | some t => if t = "" then "Unknown" else t
    format := (o.format.getD s.defaultFormat).toLower
    quality := o.quality.getD s.defaultQuality
    attempts := 0
    maxAttempts := MAX_ATTEMPTS
    status := Status.queued
    size := 0
    downloadedSize := 0 }

/-- addUrl pushes the new item on the tail of the queue and returns its id.
The nested processNext call it makes is a separate scheduler step. -/
def addUrl (s : DownloadQueue) (now : Nat) (rand : ℚ) (url : String)
    (o : AddOptions) : ℚ × DownloadQueue :=
  let item := mkItem s now rand url o
  (item.id, { s with queue := s.queue ++ [item] })

/-! ## processNext, split at the await -/

/-- The synchronous prefix of processNext: the guard, the head dequeue and
the insertion into the processing map.  Returns none exactly when the
guard makes the call a no-op. -/
def processNextStart (s : DownloadQueue) : Option (Item × DownloadQueue) :=
  if s.maxConcurrent ≤ s.processing.length ∨ s.queue.length = 0 then none
  else
    match s.queue with
    | [] => none
    | item :: rest =>
        let item1 := { item with status := Status.processing }
        some (item1, { s with
          queue := rest
          processing := mapSet s.processing item1.id item1 })

/-- The continuation run when the collaborator's promise resolves:
the item is marked completed, pushed on the completed list and removed
from the processing map. -/
def resolveSuccess (s : DownloadQueue) (item : Item) : DownloadQueue :=
  let item1 := { item with status := Status.completed }
  { s with
    completed := s.completed ++ [item1]
    processing := mapDelete s.processing item.id }

/-- The continuation run when the collaborator's promise rejects:
attempts is incremented; with attempts still below the ceiling the item is
reinserted at the head of the queue as queued, otherwise it is appended to
the failed list with the error text; either way it leaves processing. -/
def resolveFailure (s : DownloadQueue) (item : Item) (err : String) :
    DownloadQueue :=
  let item1 := { item with attempts := item.attempts + 1 }
  if item1.attempts < item1.maxAttempts then
    { s with
      queue := { item1 with status := Status.queued } :: s.queue
      processing := mapDelete s.processing item.id }
  else
    { s with
      failed := s.failed ++ [⟨{ item1 with status := Status.failed }, err⟩]
      processing := mapDelete s.processing item.id }

/-- One attempt that fails: the synchronous prefix of processNext followed
by the failure continuation (a no-op when the guard refuses to start). -/
def failStep (err : String) (s : DownloadQueue) : DownloadQueue :=
  match processNextStart s with
  | none => s
  | some (it, s1) => resolveFailure s1 it err

/-- n consecutive failing attempts. -/
def failIter (err : String) : Nat → DownloadQueue → DownloadQueue
  | 0, s => s
  | n + 1, s => failStep err (failIter err n s)

/-- A scheduler holding exactly one job in its queue. -/
def singleJobState (now : Nat) (J : Item) : DownloadQueue :=
  { initState now with queue := [J] }

/-- The states reachable by any interleaving of submissions, attempt
starts and attempt resolutions.  The resolution steps are allowed for an
arbitrary item, a superset of the behaviours of the event loop, so any
invariant proved over this relation holds for the real runs. -/
inductive Reachable : DownloadQueue → Prop where
  | init (now : Nat) : Reachable (initState now)
  | submit {s : DownloadQueue} (now : Nat) (rand : ℚ) (url : String)
      (o : AddOptions) : Reachable s → Reachable (addUrl s now rand url o).2
  | start {s : DownloadQueue} {it : Item} {s1 : DownloadQueue} :
      Reachable s → processNextStart s = some (it, s1) → Reachable s1
  | success {s : DownloadQueue} {it : Item} :
      Reachable s → Reachable (resolveSuccess s it)
  | failure {s : DownloadQueue} {it : Item} {err : String} :
      Reachable s → Reachable (resolveFailure s it err)

/-! ## getOverallProgress -/

/-- getOverallProgress: the done-over-total ratio scaled to a percentage,
zero when there are no jobs at all.  The source computes total and done as
locals; they are inlined here. -/
def getOverallProgress (s : DownloadQueue) : ℚ :=
  if 0 < s.completed.length + s.failed.length + s.processing.length +
      s.queue.length then
    (((s.completed.length + s.failed.length : Nat) : ℚ) /
        ((s.completed.length + s.failed.length + s.processing.length +
            s.queue.length : Nat) : ℚ)) * 100
  else 0

/-! ## Proxy rotator (src/core/ProxyRotator.js) -/

structure ProxyRotator where
  proxies : List String
  currentIndex : Nat
  failedProxies : List String
  rotationCount : Nat
deriving DecidableEq

/-- rotateToNext: advance the pointer modulo the pool size and bump the
rotation counter. -/
def rotateToNext (r : ProxyRotator) : ProxyRotator :=
  { r with
    currentIndex := (r.currentIndex + 1) % r.proxies.length
    rotationCount := r.rotationCount + 1 }

/-- The while loop of getCurrentProxy, with the remaining attempt budget
as fuel: skip failed entries by rotating; once the budget is exhausted
(a full sweep found every entry failed) clear the failed set and return
the entry now at the pointer. -/
def getCurrentProxyAux : ProxyRotator → Nat → Option String × ProxyRotator
  | r, 0 => (r.proxies.get? r.currentIndex, { r with failedProxies := [] })
  | r, fuel + 1 =>
      match r.proxies.get? r.currentIndex with
      | none => (none, r)
      | some p =>
          if p ∈ r.failedProxies then getCurrentProxyAux (rotateToNext r) fuel
          else (some p, r)

/-- getCurrentProxy: null for an empty pool, otherwise the sweep with a
budget of one attempt per pool entry. -/
def getCurrentProxy (r : ProxyRotator) : Option String × ProxyRotator :=
  if r.proxies.length = 0 then (none, r)
  else getCurrentProxyAux r r.proxies.length

/-- markAsFailed: add the entry to the failed set (a Set, hence the
idempotence guard) and rotate unconditionally. -/
def markAsFailed (r : ProxyRotator) (p : String) : ProxyRotator :=
  rotateToNext { r with
    failedProxies :=
      if p ∈ r.failedProxies then r.failedProxies else p :: r.failedProxies }

/-- addProxy: append to the pool, leaving pointer and failed set alone. -/
def addProxy (r : ProxyRotator) (p : String) : ProxyRotator :=
  { r with proxies := r.proxies ++ [p] }

/-- Iterated rotation, used to describe a full failed sweep. -/
def rotIter : Nat → ProxyRotator → ProxyRotator
  | 0, r => r
  | n + 1, r => rotIter n (rotateToNext r)

/-! ## Progress aggregation (handleProgress / updateAggregateProgress) -/

/-- A per-job progress sample as handleProgress stores it; percent and
speed may be absent, matching the falsy-default reads in the source. -/
structure ProgressInfo where
  percent : Option ℚ
  speed : Option String
deriving DecidableEq

/-- handleProgress: store the latest sample for the item. -/
def handleProgress (progressData : List (ℚ × ProgressInfo)) (itemId : ℚ)
    (info : ProgressInfo) : List (ℚ × ProgressInfo) :=
  mapSet progressData itemId info

def isDigitOrDot (c : Char) : Bool := c.isDigit || c == '.'

/-- The first match of the digit-or-dot regex character class applied to
the speed string: the first maximal run of digits and dots, none when the
string has no such character. -/
def firstNumRun (s : String) : Option (List Char) :=
  let run := (s.data.dropWhile (fun c => !(isDigitOrDot c))).takeWhile
    isDigitOrDot
  if run.isEmpty then none else some run

def digitsVal (cs : List Char) : Nat :=
  cs.foldl (fun a c => a * 10 + (c.toNat - 48)) 0

/-- parseFloat applied to a run of digits and dots: the integer part, an
optional dot and a fraction part, stopping at a second dot; none models
the NaN produced when the run carries no digit before its second dot. -/
def parseFloatRun (cs : List Char) : Option ℚ :=
  let ip := cs.takeWhile (fun c => c.isDigit)
  let rest := cs.drop ip.length
  match rest with
  | '.' :: r2 =>
      let fp := r2.takeWhile (fun c => c.isDigit)
      if ip.isEmpty && fp.isEmpty then none
      else some ((digitsVal ip : ℚ) + (digitsVal fp : ℚ) / (10 : ℚ) ^ fp.length)
  | _ => if ip.isEmpty then none else some ((digitsVal ip : ℚ))

/-- Whether pat occurs as a contiguous run inside l. -/
def hasInfixRun : List Char → List Char → Bool
  | [], pat => pat.isEmpty
  | c :: rest, pat => pat.isPrefixOf (c :: rest) || hasInfixRun rest pat

/-- String.prototype.includes. -/
def containsSub (s pat : String) : Bool := hasInfixRun s.data pat.data

/-- The loop accumulator of updateAggregateProgress; totalSpeed is an
option, none standing for the NaN that a digitless run injects and that
then propagates through every further addition. -/
structure AggState where
  totalProgress : ℚ
  activeDownloads : Nat
  totalSpeed : Option ℚ
deriving DecidableEq

/-- NaN-propagating addition. -/
def nanAdd (a b : Option ℚ) : Option ℚ :=
  match a, b with
  | some x, some y => some (x + y)
  | _, _ => none

/-- The speed string actually inspected: the stored speed, with the falsy
fallback to the literal zero string. -/
def speedStrOf (p : ProgressInfo) : String :=
  match p.speed with
  | none => "0"
  | some s => if s = "" then "0" else s

/-- One iteration of the for-of loop of updateAggregateProgress: samples
whose id is not in the processing map are skipped; otherwise percent is
accumulated, the active count bumped, and the parsed speed added scaled
by its unit, megabytes first, then kilobytes, any other unit ignored. -/
def aggStep (processingIds : List ℚ) (st : AggState) (e : ℚ × ProgressInfo) :
    AggState :=
  if e.1 ∈ processingIds then
    let st1 : AggState :=
      { st with
        totalProgress := st.totalProgress + (e.2.percent.getD 0)
        activeDownloads := st.activeDownloads + 1 }
    match firstNumRun (speedStrOf e.2) with
    | none => st1
    | some run =>
        let v := parseFloatRun run
        if containsSub (speedStrOf e.2) "MB" then
          { st1 with totalSpeed := nanAdd st1.totalSpeed (v.map (fun x => x * 1024)) }
        else if containsSub (speedStrOf e.2) "KB" then
          { st1 with totalSpeed := nanAdd st1.totalSpeed v }
        else st1
  else st

/-- The aggregate payload emitted by updateAggregateProgress (the
overallProgress and eta fields of the emitted object come from
getOverallProgress and calculateETA and are modelled by those functions;
toFixed formatting is presentation only). -/
structure AggregateView where
  averageProgress : ℚ
  activeDownloads : Nat
  totalSpeed : ℚ
deriving DecidableEq

/-- updateAggregateProgress: fold the loop over the stored samples, then
build the payload; the isNaN guard turns a poisoned total into zero. -/
def updateAggregateProgress (progressData : List (ℚ × ProgressInfo))
    (processingIds : List ℚ) : AggregateView :=
  let st := progressData.foldl (aggStep processingIds) ⟨0, 0, some 0⟩
  { averageProgress :=
      if 0 < st.activeDownloads then st.totalProgress / (st.activeDownloads : ℚ)
      else 0
    activeDownloads := st.activeDownloads
    totalSpeed := st.totalSpeed.getD 0 }

/-! ## Persistence (saveQueueState / loadQueueState) -/

/-- The state object serialised by saveQueueState.  Note the source
serialises the queue, completed and failed collections only: the
processing map is not part of the snapshot. -/
structure Snapshot where
  queue : List Item
  completed : List Item
  failed : List FailedItem
  startTime : Nat
  defaultFormat : String
  defaultQuality : String
deriving DecidableEq

def mkSnapshot (s : DownloadQueue) : Snapshot :=
  { queue := s.queue
    completed := s.completed
    failed := s.failed
    startTime := s.startTime
    defaultFormat := s.defaultFormat
    defaultQuality := s.defaultQuality }

inductive WriteResult where
  | ok
  | ioError (msg : String)

/-- The raw durable write, which may fail with an error. -/
def writeSnapshot (_snap : Snapshot) (w : WriteResult) : Except String Unit :=
  match w with
  | WriteResult.ok => Except.ok ()
  | WriteResult.ioError m => Except.error m

/-- saveQueueState: build the snapshot and attempt the write inside the
try block; a write error is caught and logged (the returned list of log
lines), the scheduler state is returned untouched and no error escapes. -/
def saveQueueState (s : DownloadQueue) (w : WriteResult) :
    DownloadQueue × List String :=
  match writeSnapshot (mkSnapshot s) w with
  | Except.ok _ => (s, [])
  | Except.error m => (s, ["Failed to save queue state: " ++ m])

/-- A parsed state file with every field optional, matching the falsy
and optional-chaining defaults applied by loadQueueState. -/
structure RawState where
  queue : Option (List Item)
  completed : Option (List Item)
  failed : Option (List FailedItem)
  startTime : Option Nat
  defaultFormat : Option String
  defaultQuality : Option String
deriving DecidableEq

/-- What reading the state file can yield: no file, a file JSON.parse
rejects, or a parsed state object. -/
inductive LoadFile where
  | missing
  | corrupt (msg : String)
  | parsed (st : RawState)

def rawOfSnapshot (sn : Snapshot) : RawState :=
  { queue := some sn.queue
    completed := some sn.completed
    failed := some sn.failed
    startTime := some sn.startTime
    defaultFormat := some sn.defaultFormat
    defaultQuality := some sn.defaultQuality }

/-- The per-item normalisation the restore loop applies: every restored
item becomes queued again and missing format and quality fall back. -/
def normalizeLoadedItem (it : Item) : Item :=
  { it with
    status := Status.queued
    format := if it.format = "" then "mp3" else it.format
    quality := if it.quality = "" then "best" else it.quality }

/-- loadQueueState: a missing file or a parse error leaves the scheduler
exactly as constructed; a parsed state replaces the collections, keeping
only non-terminal queue entries, and when the restored queue is non-empty
re-marks each entry queued. -/
def loadQueueState (s : DownloadQueue) (f : LoadFile) (now : Nat) :
    DownloadQueue :=
  match f with
  | LoadFile.missing => s
  | LoadFile.corrupt _ => s
  | LoadFile.parsed st =>
      let q := (st.queue.getD []).filter
        (fun it => decide (it.status ≠ Status.completed) &&
          decide (it.status ≠ Status.failed))
      let s1 := { s with
        queue := q
        completed := st.completed.getD []
        failed := st.failed.getD []
        startTime := match st.startTime with
          | some t => if t = 0 then now else t
          | none => now
        defaultFormat := match st.defaultFormat with
          | some f2 => if f2 = "" then s.defaultFormat else f2
          | none => s.defaultFormat
        defaultQuality := match st.defaultQuality with
          | some q2 => if q2 = "" then s.defaultQuality else q2
          | none => s.defaultQuality }
      if 0 < s1.queue.length then
        { s1 with queue := s1.queue.map normalizeLoadedItem }
      else s1

/-! ## Concrete inputs used by witnesses and counterexamples -/

def J0 : Item :=
  { id := 1, url := "https://example.invalid/v", title := "t0"
    format := "mp3", quality := "best", attempts := 0, maxAttempts := 3
    status := Status.queued, size := 0, downloadedSize := 0 }

def itemA : Item := { J0 with id := 10, url := "https://example.invalid/a" }

def itemB : Item :=
  { J0 with
    id := 20
    url := "https://example.invalid/b"
    attempts := 1
    status := Status.processing }

def itemQ0 : Item := { J0 with id := 1, url := "https://example.invalid/q" }

def itemP0 : Item :=
  { J0 with
    id := 2
    url := "https://example.invalid/p"
    status := Status.processing }

/-- A scheduler about to be saved with one processing job and one queued
job, the crash-resume scenario of the spec. -/
def c2SavedState : DownloadQueue :=
  { queue := [itemQ0]
    processing := [(itemP0.id, itemP0)]
    completed := []
    failed := []
    maxConcurrent := MAX_CONCURRENT_DOWNLOADS
    defaultFormat := DEFAULT_FORMAT
    defaultQuality := DEFAULT_QUALITY
    startTime := 5 }

/-- The same job population as c2SavedState after both jobs resolved:
same total count, both jobs now in a terminal collection. -/
def c7After : DownloadQueue :=
  { c2SavedState with
    queue := []
    processing := []
    completed := [itemQ0]
    failed := [⟨itemP0, "boom"⟩] }

def rotAllFailed : ProxyRotator :=
  { proxies := ["a", "b"], currentIndex := 0
    failedProxies := ["a", "b"], rotationCount := 0 }

/-- A pool of two distinct entries whose other entry is already failed and
whose pointer sits on that other entry. -/
def rotC6 : ProxyRotator :=
  { proxies := ["p", "q"], currentIndex := 1
    failedProxies := ["q"], rotationCount := 0 }

def rotFresh : ProxyRotator :=
  { proxies := ["p", "q"], currentIndex := 0
    failedProxies := [], rotationCount := 0 }

def sampleKB : ProgressInfo := ⟨some 50, some "10 KB/s"⟩

/-- A sample whose speed string has no digit yet still matches the
digit-or-dot class through its leading dot. -/
def sampleDotMB : ProgressInfo := ⟨some 50, some ".MB/s"⟩

def sampleNoMatch : ProgressInfo := ⟨some 50, some "N/A"⟩

/-- A scheduler with one fresh job queued while another job's attempt is
in flight, the retry-priority scenario. -/
def c4State (A B : Item) (comp : List Item) (fl : List FailedItem)
    (t0 : Nat) : DownloadQueue :=
  { queue := [A]
    processing := [(B.id, B)]
    completed := comp
    failed := fl
    maxConcurrent := MAX_CONCURRENT_DOWNLOADS
    defaultFormat := DEFAULT_FORMAT
    defaultQuality := DEFAULT_QUALITY
    startTime := t0 }

/-! ## Helper lemmas -/

theorem mapSet_length_le {α : Type} (m : List (ℚ × α)) (k : ℚ) (v : α) :
    (mapSet m k v).length ≤ m.length + 1 := by
  unfold mapSet
  split
  · rw [List.length_map]; omega
  · rw [List.length_append]; simp

theorem mapDelete_length_le {α : Type} (m : List (ℚ × α)) (k : ℚ) :
    (mapDelete m k).length ≤ m.length :=
  List.length_filter_le _ _

theorem resolveFailure_processing (s : DownloadQueue) (it : Item)
    (err : String) :
    (resolveFailure s it err).processing = mapDelete s.processing it.id := by
  unfold resolveFailure
  dsimp only
  split <;> rfl

theorem resolveFailure_maxConcurrent (s : DownloadQueue) (it : Item)
    (err : String) :
    (resolveFailure s it err).maxConcurrent = s.maxConcurrent := by
  unfold resolveFailure
  dsimp only
  split <;> rfl

/-- Every reachable scheduler state keeps the configured bound and at most
that many entries in the processing map. -/
theorem reachable_invariant {s : DownloadQueue} (h : Reachable s) :
    s.maxConcurrent = MAX_CONCURRENT_DOWNLOADS ∧
      s.processing.length ≤ s.maxConcurrent := by
  induction h with
  | init now => exact ⟨rfl, by simp [initState]⟩
  | submit now rand url o _ ih => exact ⟨ih.1, ih.2⟩
  | @start s it s1 _ heq ih =>
      unfold processNextStart at heq
      by_cases hguard : s.maxConcurrent ≤ s.processing.length ∨
          s.queue.length = 0
      · rw [if_pos hguard] at heq
        exact absurd heq (by simp)
      · rw [if_neg hguard] at heq
        push_neg at hguard
        obtain ⟨h1, _⟩ := hguard
        cases hq : s.queue with
        | nil => rw [hq] at heq; exact absurd heq (by simp)
        | cons item rest =>
            rw [hq] at heq
            simp only [Option.some.injEq, Prod.mk.injEq] at heq
            obtain ⟨-, rfl⟩ := heq
            refine ⟨ih.1, ?_⟩
            have hle := mapSet_length_le s.processing item.id
              { item with status := Status.processing }
            simp only
            omega
  | success _ ih =>
      exact ⟨ih.1, le_trans (mapDelete_length_le _ _) ih.2⟩
  | failure _ ih =>
      rename_i s2 it2 err2
      rw [resolveFailure_maxConcurrent, resolveFailure_processing]
      exact ⟨ih.1, le_trans (mapDelete_length_le _ _) ih.2⟩

theorem processNextStart_guard (s : DownloadQueue)
    (h : s.maxConcurrent ≤ s.processing.length ∨ s.queue = []) :
    processNextStart s = none := by
  unfold processNextStart
  rw [if_pos]
  rcases h with h | h
  · exact Or.inl h
  · exact Or.inr (by rw [h]; rfl)

theorem failStep_of_queue_nil (err : String) (s : DownloadQueue)
    (h : s.queue = []) : failStep err s = s := by
  unfold failStep
  rw [processNextStart_guard s (Or.inr h)]

/-- One failing attempt on a scheduler holding exactly one job, when the
job still has attempts left: the job comes back queued at the head with
its counter bumped. -/
theorem failStep_single_retry (now : Nat) (J : Item) (err : String)
    (h : J.attempts + 1 < J.maxAttempts) :
    failStep err (singleJobState now J) =
      singleJobState now
        { J with attempts := J.attempts + 1, status := Status.queued } := by
  simp [failStep, processNextStart, singleJobState, initState,
    MAX_CONCURRENT_DOWNLOADS, resolveFailure, mapSet, mapDelete, h]

/-- One failing attempt on a scheduler holding exactly one job, when the
attempt was the last allowed one: the job moves to the failed list. -/
theorem failStep_single_fail (now : Nat) (J : Item) (err : String)
    (h : ¬ J.attempts + 1 < J.maxAttempts) :
    failStep err (singleJobState now J) =
      { initState now with
        failed :=
          [⟨{ J with attempts := J.attempts + 1, status := Status.failed },
            err⟩] } := by
  simp [failStep, processNextStart, singleJobState, initState,
    MAX_CONCURRENT_DOWNLOADS, resolveFailure, mapSet, mapDelete, h]

/-! ## C1 -/

/-- C1: over every sequence of submissions, attempt starts and attempt
resolutions, the processing map never holds more than the configured
bound MAX_CONCURRENT_DOWNLOADS of jobs; and a processNext call is a no-op
whenever the bound is already reached or the queue is empty. -/
theorem c1_concurrency_bound :
    (∀ s : DownloadQueue, Reachable s →
        s.processing.length ≤ MAX_CONCURRENT_DOWNLOADS) ∧
    (∀ s : DownloadQueue,
        s.maxConcurrent ≤ s.processing.length ∨ s.queue = [] →
        processNextStart s = none) := by
  constructor
  · intro s hs
    obtain ⟨h1, h2⟩ := reachable_invariant hs
    omega
  · exact processNextStart_guard

/-- Witness for C1 at the freshly constructed scheduler. -/
theorem c1_witness :
    (initState 0).processing.length ≤ MAX_CONCURRENT_DOWNLOADS ∧
      processNextStart (initState 0) = none :=
  ⟨c1_concurrency_bound.1 (initState 0) (Reachable.init 0),
    c1_concurrency_bound.2 (initState 0) (Or.inr rfl)⟩

/-! ## C3 -/

/-- C3: a job whose every attempt fails stays in the queue (with its
attempt counter equal to the number of failed attempts so far) after
every attempt short of the ceiling, reaches the failed list with the
error text exactly at the maxAttempts-th failed attempt, and is never
re-enqueued afterwards. -/
theorem c3_retry_ceiling (now : Nat) (J : Item) (err : String)
    (h0 : J.attempts = 0) (hq : J.status = Status.queued)
    (hM : 0 < J.maxAttempts) :
    (∀ n, n < J.maxAttempts →
        failIter err n (singleJobState now J) =
          singleJobState now
            { J with attempts := n, status := Status.queued }) ∧
    (failIter err J.maxAttempts (singleJobState now J) =
      { initState now with
        failed :=
          [⟨{ J with attempts := J.maxAttempts, status := Status.failed },
            err⟩] }) ∧
    (∀ k, failIter err (J.maxAttempts + k) (singleJobState now J) =
        failIter err J.maxAttempts (singleJobState now J)) := by
  have part1 : ∀ n, n < J.maxAttempts →
      failIter err n (singleJobState now J) =
        singleJobState now
          { J with attempts := n, status := Status.queued } := by
    intro n
    induction n with
    | zero =>
        intro _
        have hJ : ({ J with attempts := 0, status := Status.queued } : Item)
            = J := by
          cases J
          simp_all
        rw [failIter, hJ]
    | succ n ih =>
        intro hlt
        have hn : n < J.maxAttempts := Nat.lt_of_succ_lt hlt
        rw [failIter, ih hn, failStep_single_retry]
        simpa using hlt
  have part2 : failIter err J.maxAttempts (singleJobState now J) =
      { initState now with
        failed :=
          [⟨{ J with attempts := J.maxAttempts, status := Status.failed },
            err⟩] } := by
    obtain ⟨m, hm⟩ : ∃ m, J.maxAttempts = m + 1 := ⟨J.maxAttempts - 1, by omega⟩
    rw [hm, failIter, part1 m (by omega),
      failStep_single_fail now _ err (by show ¬ m + 1 < J.maxAttempts; omega)]
    simp [hm]
  refine ⟨part1, part2, ?_⟩
  intro k
  induction k with
  | zero => rfl
  | succ k ih =>
      rw [show J.maxAttempts + (k + 1) = (J.maxAttempts + k) + 1 from rfl,
        failIter, ih, part2]
      exact failStep_of_queue_nil err _ rfl

/-- Witness for C3 at a concrete fresh job with a ceiling of three. -/
theorem c3_witness :
    failIter "boom" 2 (singleJobState 0 J0) =
      singleJobState 0 { J0 with attempts := 2, status := Status.queued } ∧
    failIter "boom" 3 (singleJobState 0 J0) =
      { initState 0 with
        failed :=
          [⟨{ J0 with attempts := 3, status := Status.failed }, "boom"⟩] } :=
  ⟨(c3_retry_ceiling 0 J0 "boom" rfl rfl (by decide)).1 2 (by decide),
    (c3_retry_ceiling 0 J0 "boom" rfl rfl (by decide)).2.1⟩

/-! ## C4 -/

/-- C4: a job whose attempt fails with attempts remaining is reinserted at
the head of the queue while fresh submissions are appended at the tail,
so the next dequeue starts the retried job before the fresh one. -/
theorem c4_retry_priority (A B : Item) (comp : List Item)
    (fl : List FailedItem) (t0 : Nat) (err : String)
    (hB : B.attempts + 1 < B.maxAttempts) :
    ((resolveFailure (c4State A B comp fl t0) B err).queue =
        { B with attempts := B.attempts + 1, status := Status.queued } ::
          [A]) ∧
    ((processNextStart (resolveFailure (c4State A B comp fl t0) B err)).map
        (fun p => p.1.id) = some B.id) ∧
    (∀ (s : DownloadQueue) (t1 : Nat) (r : ℚ) (u : String) (o : AddOptions),
        (addUrl s t1 r u o).2.queue = s.queue ++ [mkItem s t1 r u o]) := by
  refine ⟨?_, ?_, ?_⟩
  · simp [resolveFailure, c4State, hB]
  · simp [resolveFailure, c4State, hB, processNextStart, mapDelete, mapSet,
      MAX_CONCURRENT_DOWNLOADS]
  · intro s t1 r u o
    rfl

/-- Witness for C4 at a concrete fresh job and a concrete retried job. -/
theorem c4_witness :
    (resolveFailure (c4State itemA itemB [] [] 0) itemB "boom").queue =
      { itemB with attempts := 2, status := Status.queued } :: [itemA] ∧
    (processNextStart (resolveFailure (c4State itemA itemB [] [] 0) itemB
        "boom")).map (fun p => p.1.id) = some itemB.id :=
  ⟨(c4_retry_priority itemA itemB [] [] 0 "boom" (by decide)).1,
    (c4_retry_priority itemA itemB [] [] 0 "boom" (by decide)).2.1⟩

/-! ## Proxy rotator lemmas -/

theorem rotateToNext_proxies (r : ProxyRotator) :
    (rotateToNext r).proxies = r.proxies := rfl

theorem rotateToNext_failed (r : ProxyRotator) :
    (rotateToNext r).failedProxies = r.failedProxies := rfl

theorem rotateToNext_index_lt (r : ProxyRotator)
    (h : 0 < r.proxies.length) :
    (rotateToNext r).currentIndex < r.proxies.length :=
  Nat.mod_lt _ h

theorem rotIter_proxies : ∀ (n : Nat) (r : ProxyRotator),
    (rotIter n r).proxies = r.proxies := by
  intro n
  induction n with
  | zero => intro r; rfl
  | succ n ih => intro r; rw [rotIter, ih, rotateToNext_proxies]

theorem rotIter_index_lt : ∀ (n : Nat) (r : ProxyRotator),
    r.currentIndex < r.proxies.length →
    (rotIter n r).currentIndex < (rotIter n r).proxies.length := by
  intro n
  induction n with
  | zero => intro r h; exact h
  | succ n ih =>
      intro r h
      rw [rotIter]
      exact ih (rotateToNext r)
        (rotateToNext_index_lt r (Nat.lt_of_le_of_lt (Nat.zero_le _) h))

/-- With the pointer in range the sweep always produces an entry. -/
theorem getCurrentProxyAux_isSome : ∀ (fuel : Nat) (r : ProxyRotator),
    r.currentIndex < r.proxies.length →
    (getCurrentProxyAux r fuel).1.isSome = true := by
  intro fuel
  induction fuel with
  | zero =>
      intro r h
      unfold getCurrentProxyAux
      rw [List.get?_eq_get h]
      rfl
  | succ n ih =>
      intro r h
      unfold getCurrentProxyAux
      rw [List.get?_eq_get h]
      dsimp only
      split
      · exact ih (rotateToNext r)
          (rotateToNext_index_lt r (Nat.lt_of_le_of_lt (Nat.zero_le _) h))
      · rfl

/-- When every entry is failed, the sweep rotates through its whole budget
and ends in the reset branch: the failed set is cleared and the entry at
the final pointer is handed back. -/
theorem getCurrentProxyAux_all_failed : ∀ (fuel : Nat) (r : ProxyRotator),
    r.currentIndex < r.proxies.length →
    (∀ p ∈ r.proxies, p ∈ r.failedProxies) →
    getCurrentProxyAux r fuel =
      ((rotIter fuel r).proxies.get? (rotIter fuel r).currentIndex,
        { rotIter fuel r with failedProxies := [] }) := by
  intro fuel
  induction fuel with
  | zero => intro r _ _; rfl
  | succ n ih =>
      intro r h hall
      unfold getCurrentProxyAux
      rw [List.get?_eq_get h]
      dsimp only
      rw [if_pos (hall _ (List.get?_mem (List.get?_eq_get h)))]
      rw [ih (rotateToNext r)
        (rotateToNext_index_lt r (Nat.lt_of_le_of_lt (Nat.zero_le _) h))
        (fun p hp => hall p hp)]
      rfl

/-- When some entry within the remaining sweep budget is not failed, the
sweep returns an entry outside the failed set. -/
theorem getCurrentProxyAux_finds_unfailed : ∀ (fuel : Nat) (r : ProxyRotator),
    r.currentIndex < r.proxies.length →
    (∃ j, j < fuel ∧ ∃ q,
        r.proxies.get? ((r.currentIndex + j) % r.proxies.length) = some q ∧
        q ∉ r.failedProxies) →
    ∃ q, (getCurrentProxyAux r fuel).1 = some q ∧ q ∉ r.failedProxies := by
  intro fuel
  induction fuel with
  | zero =>
      intro r _ hex
      obtain ⟨j, hj, -⟩ := hex
      omega
  | succ n ih =>
      intro r h hex
      obtain ⟨j, hj, q, hq, hqf⟩ := hex
      unfold getCurrentProxyAux
      rw [List.get?_eq_get h]
      dsimp only
      by_cases hpf : r.proxies.get ⟨r.currentIndex, h⟩ ∈ r.failedProxies
      · rw [if_pos hpf]
        have hj0 : j ≠ 0 := by
          intro h0
          subst h0
          rw [Nat.add_zero, Nat.mod_eq_of_lt h, List.get?_eq_get h] at hq
          injection hq with hq
          exact hqf (hq ▸ hpf)
        obtain ⟨j2, rfl⟩ : ∃ j2, j = j2 + 1 := ⟨j - 1, by omega⟩
        apply ih (rotateToNext r)
          (rotateToNext_index_lt r (Nat.lt_of_le_of_lt (Nat.zero_le _) h))
        refine ⟨j2, by omega, q, ?_, hqf⟩
        show r.proxies.get?
          (((r.currentIndex + 1) % r.proxies.length + j2) %
            r.proxies.length) = some q
        rw [Nat.mod_add_mod]
        rw [show r.currentIndex + 1 + j2 = r.currentIndex + (j2 + 1) from
          by omega]
        exact hq
      · rw [if_neg hpf]
        exact ⟨_, rfl, hpf⟩

/-- The marked entry is in the failed set afterwards. -/
theorem markAsFailed_mem (r : ProxyRotator) (p : String) :
    p ∈ (markAsFailed r p).failedProxies := by
  unfold markAsFailed
  rw [rotateToNext_failed]
  dsimp only
  split
  · assumption
  · exact List.mem_cons_self p _

theorem markAsFailed_proxies (r : ProxyRotator) (p : String) :
    (markAsFailed r p).proxies = r.proxies := rfl

/-! ## C5 -/

/-- C5: with a non-empty pool whose pointer is in range, getCurrentProxy
never returns null; and when every entry is in the failed set, it clears
the failed set and returns the entry now at the pointer. -/
theorem c5_proxy_exhaustion (r : ProxyRotator) (h0 : r.proxies ≠ [])
    (hidx : r.currentIndex < r.proxies.length) :
    ((∀ p ∈ r.proxies, p ∈ r.failedProxies) →
        (getCurrentProxy r).1.isSome = true ∧
        (getCurrentProxy r).2.failedProxies = [] ∧
        (getCurrentProxy r).1 =
          (getCurrentProxy r).2.proxies.get?
            (getCurrentProxy r).2.currentIndex) ∧
    (getCurrentProxy r).1.isSome = true := by
  have hlen : ¬ r.proxies.length = 0 := by
    intro h
    exact h0 (List.length_eq_zero.mp h)
  constructor
  · intro hall
    unfold getCurrentProxy
    rw [if_neg hlen]
    rw [getCurrentProxyAux_all_failed r.proxies.length r hidx hall]
    have hlt := rotIter_index_lt r.proxies.length r hidx
    refine ⟨?_, rfl, rfl⟩
    dsimp only
    rw [List.get?_eq_get hlt]
    rfl
  · unfold getCurrentProxy
    rw [if_neg hlen]
    exact getCurrentProxyAux_isSome r.proxies.length r hidx

/-- Witness for C5 at a two-entry pool with both entries failed. -/
theorem c5_witness :
    (getCurrentProxy rotAllFailed).1.isSome = true ∧
      (getCurrentProxy rotAllFailed).2.failedProxies = [] :=
  ⟨((c5_proxy_exhaustion rotAllFailed (by decide) (by decide)).1
      (by decide)).1,
    ((c5_proxy_exhaustion rotAllFailed (by decide) (by decide)).1
      (by decide)).2.1⟩

/-! ## C6 -/

/-- C6 counterexample: a two-entry pool of distinct entries, the other
entry already failed and the pointer on it; marking p failed completes
the failed set, and the immediately following getCurrentProxy call hits
the full-reset branch and returns p itself, refuting the claim that the
result always differs from the entry just marked. -/
theorem c6_counterexample :
    rotC6.proxies.length = 2 ∧ "p" ∈ rotC6.proxies ∧
      (getCurrentProxy (markAsFailed rotC6 "p")).1 = some "p" := by
  refine ⟨rfl, ?_, ?_⟩
  · decide
  · decide

/-- C6 amended: whenever at least one pool entry is outside the failed set
after markAsFailed(p), the immediately following getCurrentProxy call
returns an entry outside the failed set — in particular different from
the entry just marked. -/
theorem c6_amended (r : ProxyRotator) (p : String)
    (hidx : r.currentIndex < r.proxies.length)
    (hq : ∃ q ∈ r.proxies, q ∉ (markAsFailed r p).failedProxies) :
    (getCurrentProxy (markAsFailed r p)).1.isSome = true ∧
      (getCurrentProxy (markAsFailed r p)).1 ≠ some p := by
  obtain ⟨q, hq_mem, hq_nf⟩ := hq
  have hpos : 0 < r.proxies.length := Nat.lt_of_le_of_lt (Nat.zero_le _) hidx
  have hlen : ¬ (markAsFailed r p).proxies.length = 0 := by
    rw [markAsFailed_proxies]
    omega
  have hidx1 : (markAsFailed r p).currentIndex <
      (markAsFailed r p).proxies.length := by
    rw [markAsFailed_proxies]
    exact Nat.mod_lt _ hpos
  obtain ⟨k, hk⟩ := List.mem_iff_get?.mp hq_mem
  have hklt : k < r.proxies.length := (List.get?_eq_some.mp hk).1
  have hfind : ∃ j, j < (markAsFailed r p).proxies.length ∧ ∃ q2,
      (markAsFailed r p).proxies.get?
        (((markAsFailed r p).currentIndex + j) %
          (markAsFailed r p).proxies.length) = some q2 ∧
      q2 ∉ (markAsFailed r p).failedProxies := by
    rw [markAsFailed_proxies]
    set i := (markAsFailed r p).currentIndex with hi
    have hilt : i < r.proxies.length := by
      rw [hi]
      have := hidx1
      rw [markAsFailed_proxies] at this
      exact this
    by_cases hik : i ≤ k
    · refine ⟨k - i, by omega, q, ?_, hq_nf⟩
      rw [show i + (k - i) = k from by omega, Nat.mod_eq_of_lt hklt]
      exact hk
    · refine ⟨r.proxies.length - i + k, by omega, q, ?_, hq_nf⟩
      rw [show i + (r.proxies.length - i + k) = r.proxies.length + k from
        by omega]
      rw [Nat.add_mod_left, Nat.mod_eq_of_lt hklt]
      exact hk
  obtain ⟨x, hx, hxf⟩ := getCurrentProxyAux_finds_unfailed
    (markAsFailed r p).proxies.length (markAsFailed r p) hidx1 hfind
  have hres : (getCurrentProxy (markAsFailed r p)).1 = some x := by
    unfold getCurrentProxy
    rw [if_neg hlen]
    exact hx
  constructor
  · rw [hres]
    rfl
  · rw [hres]
    intro hxp
    injection hxp with hxp
    exact hxf (hxp ▸ markAsFailed_mem r p)

/-- Witness for C6 amended: a fresh two-entry pool, marking one entry
leaves the other usable and the next proxy differs from the marked one. -/
theorem c6_witness :
    (getCurrentProxy (markAsFailed rotFresh "p")).1.isSome = true ∧
      (getCurrentProxy (markAsFailed rotFresh "p")).1 ≠ some "p" :=
  c6_amended rotFresh "p" (by decide) ⟨"q", by decide, by decide⟩

/-! ## C7 -/

/-- C7: getOverallProgress equals the done-over-total ratio scaled to a
percentage, and for a fixed total job count it is non-decreasing as jobs
move from the queue and the processing map into the completed or failed
collections. -/
theorem c7_overall_progress :
    (∀ s : DownloadQueue,
        0 < s.queue.length + s.processing.length + s.completed.length +
            s.failed.length →
        getOverallProgress s =
          (((s.completed.length + s.failed.length : Nat) : ℚ) /
            ((s.queue.length + s.processing.length + s.completed.length +
                s.failed.length : Nat) : ℚ)) * 100) ∧
    (∀ s t : DownloadQueue,
        s.queue.length + s.processing.length + s.completed.length +
            s.failed.length =
          t.queue.length + t.processing.length + t.completed.length +
            t.failed.length →
        s.completed.length + s.failed.length ≤
          t.completed.length + t.failed.length →
        getOverallProgress s ≤ getOverallProgress t) := by
  constructor
  · intro s h
    unfold getOverallProgress
    rw [if_pos (by omega)]
    rw [show s.completed.length + s.failed.length + s.processing.length +
        s.queue.length = s.queue.length + s.processing.length +
        s.completed.length + s.failed.length from by omega]
  · intro s t he hd
    unfold getOverallProgress
    by_cases hs : 0 < s.completed.length + s.failed.length +
        s.processing.length + s.queue.length
    · have ht : 0 < t.completed.length + t.failed.length +
          t.processing.length + t.queue.length := by omega
      rw [if_pos hs, if_pos ht]
      rw [show s.completed.length + s.failed.length + s.processing.length +
          s.queue.length = t.completed.length + t.failed.length +
          t.processing.length + t.queue.length from by omega]
      have h1 : ((s.completed.length + s.failed.length : Nat) : ℚ) ≤
          ((t.completed.length + t.failed.length : Nat) : ℚ) := by
        exact_mod_cast hd
      have h2 : (0 : ℚ) < ((t.completed.length + t.failed.length +
          t.processing.length + t.queue.length : Nat) : ℚ) := by
        exact_mod_cast ht
      gcongr
    · have ht : ¬ 0 < t.completed.length + t.failed.length +
          t.processing.length + t.queue.length := by omega
      rw [if_neg hs, if_neg ht]

/-- Witness for C7 at the two-job scenario before and after both jobs
resolve. -/
theorem c7_witness :
    getOverallProgress c2SavedState =
      (((c2SavedState.completed.length + c2SavedState.failed.length : Nat) :
          ℚ) /
        ((c2SavedState.queue.length + c2SavedState.processing.length +
            c2SavedState.completed.length + c2SavedState.failed.length :
          Nat) : ℚ)) * 100 ∧
    getOverallProgress c2SavedState ≤ getOverallProgress c7After :=
  ⟨c7_overall_progress.1 c2SavedState (by decide),
    c7_overall_progress.2 c2SavedState c7After (by decide) (by decide)⟩

/-! ## C8 -/

/-- C8: persistence is best-effort — a failing write leaves the in-memory
scheduler untouched and raises nothing (saveQueueState is total and
returns the state unchanged for every write outcome), and a missing or
corrupt state file leaves a freshly constructed scheduler in the empty
cold-start state. -/
theorem c8_persistence_best_effort :
    (∀ (s : DownloadQueue) (w : WriteResult), (saveQueueState s w).1 = s) ∧
    (∀ t0 t1 : Nat,
        loadQueueState (initState t0) LoadFile.missing t1 = initState t0) ∧
    (∀ (t0 t1 : Nat) (msg : String),
        loadQueueState (initState t0) (LoadFile.corrupt msg) t1 =
          initState t0) := by
  refine ⟨?_, ?_, ?_⟩
  · intro s w
    cases w <;> rfl
  · intro t0 t1
    rfl
  · intro t0 t1 msg
    rfl

/-! ## C2 -/

/-- C2: evaluating save-then-load at the crash-resume scenario with one
processing job and one queued job: the snapshot built by saveQueueState
carries only the queued job, because the processing map is not
serialised, so the freshly constructed scheduler that loads it holds one
queued job and an empty processing map — the in-flight job is lost, not
requeued, contradicting the two-queued-jobs outcome the claim states. -/
theorem c2_crash_resume_eval :
    (mkSnapshot c2SavedState).queue = [itemQ0] ∧
    (loadQueueState (initState 7)
        (LoadFile.parsed (rawOfSnapshot (mkSnapshot c2SavedState)))
        7).queue = [itemQ0] ∧
    (loadQueueState (initState 7)
        (LoadFile.parsed (rawOfSnapshot (mkSnapshot c2SavedState)))
        7).processing = [] ∧
    c2SavedState.processing.length = 1 := by
  refine ⟨rfl, ?_, rfl, rfl⟩
  decide

/-! ## C9 -/

/-- C9: evaluating addUrl at two distinct submissions sharing the same
Date.now() tick and the same Math.random() draw: both jobs are appended
to the queue, yet their ids coincide, refuting the required uniqueness of
ids for submissions within the same instant. -/
theorem c9_id_collision :
    (addUrl (initState 0) 1700000000000 (1 / 2) "https://a"
        ⟨none, none, none⟩).1 =
      (addUrl (addUrl (initState 0) 1700000000000 (1 / 2) "https://a"
          ⟨none, none, none⟩).2 1700000000000 (1 / 2) "https://b"
          ⟨none, none, none⟩).1 ∧
    (addUrl (addUrl (initState 0) 1700000000000 (1 / 2) "https://a"
        ⟨none, none, none⟩).2 1700000000000 (1 / 2) "https://b"
        ⟨none, none, none⟩).2.queue.length = 2 :=
  ⟨rfl, rfl⟩

/-! ## C10 -/

theorem aggStep_not_processing (pids : List ℚ) (st : AggState)
    (e : ℚ × ProgressInfo) (h : e.1 ∉ pids) : aggStep pids st e = st := by
  unfold aggStep
  rw [if_neg h]

theorem foldl_aggStep_filter (pids : List ℚ) :
    ∀ (data : List (ℚ × ProgressInfo)) (init : AggState),
      data.foldl (aggStep pids) init =
        (data.filter (fun e => decide (e.1 ∈ pids))).foldl
          (aggStep pids) init := by
  intro data
  induction data with
  | nil => intro init; rfl
  | cons e rest ih =>
      intro init
      by_cases h : e.1 ∈ pids
      · rw [List.foldl_cons, List.filter_cons_of_pos (by simpa using h),
          List.foldl_cons, ih]
      · rw [List.foldl_cons, List.filter_cons_of_neg (by simpa using h),
          aggStep_not_processing pids init e h, ih]

theorem aggStep_totalSpeed_of_no_digit_dot (pids : List ℚ) (st : AggState)
    (e : ℚ × ProgressInfo) (sp : String) (hsp : e.2.speed = some sp)
    (hne : sp ≠ "") (hch : ∀ c ∈ sp.data, isDigitOrDot c = false) :
    (aggStep pids st e).totalSpeed = st.totalSpeed := by
  have hstr : speedStrOf e.2 = sp := by
    unfold speedStrOf
    rw [hsp]
    dsimp only
    rw [if_neg hne]
  have hdrop : sp.data.dropWhile (fun c => !(isDigitOrDot c)) = [] :=
    List.dropWhile_eq_nil_iff.mpr
      (fun c hc => by rw [hch c hc]; rfl)
  have hrun : firstNumRun sp = none := by
    unfold firstNumRun
    rw [hdrop]
    rfl
  unfold aggStep
  by_cases h : e.1 ∈ pids
  · rw [if_pos h]
    dsimp only
    rw [hstr, hrun]
  · rw [if_neg h]

/-- C10 amended: the aggregate view is computed only from samples whose
job id is in the processing map — samples for departed jobs contribute
nothing to any aggregate value — and a processing sample whose speed
string contains neither a digit nor a dot leaves totalSpeed unchanged.
(As originally stated the claim fails for a digitless speed string that
still contains a dot: its match parses to NaN, which zeroes the whole
emitted totalSpeed rather than contributing zero.) -/
theorem c10_aggregate :
    (∀ (data : List (ℚ × ProgressInfo)) (pids : List ℚ),
        updateAggregateProgress data pids =
          updateAggregateProgress
            (data.filter (fun e => decide (e.1 ∈ pids))) pids) ∧
    (∀ (pids : List ℚ) (st : AggState) (e : ℚ × ProgressInfo) (sp : String),
        e.2.speed = some sp → sp ≠ "" →
        (∀ c ∈ sp.data, isDigitOrDot c = false) →
        (aggStep pids st e).totalSpeed = st.totalSpeed) := by
  constructor
  · intro data pids
    unfold updateAggregateProgress
    rw [foldl_aggStep_filter]
  · exact aggStep_totalSpeed_of_no_digit_dot

/-- Witness for C10 at one stale sample and one digitless processing
sample. -/
theorem c10_witness :
    updateAggregateProgress [((3 : ℚ), sampleNoMatch)] [] =
      updateAggregateProgress
        ([((3 : ℚ), sampleNoMatch)].filter
          (fun e => decide (e.1 ∈ ([] : List ℚ)))) [] ∧
    (aggStep [3] ⟨0, 0, some 0⟩ ((3 : ℚ), sampleNoMatch)).totalSpeed =
      some 0 :=
  ⟨c10_aggregate.1 [((3 : ℚ), sampleNoMatch)] [],
    c10_aggregate.2 [3] ⟨0, 0, some 0⟩ ((3 : ℚ), sampleNoMatch) "N/A" rfl
      (by decide) (by decide)⟩

/-- C10 counterexample: a processing sample whose speed string contains no
digit (".MB/s") does not merely contribute zero — the dot-only match
parses to NaN and the emitted totalSpeed collapses from 10 to 0. -/
theorem c10_counterexample :
    (updateAggregateProgress [(1, sampleKB), (2, sampleDotMB)]
        [1, 2]).totalSpeed = 0 ∧
    (updateAggregateProgress [(1, sampleKB)] [1, 2]).totalSpeed = 10 ∧
    (∀ c ∈ ".MB/s".data, c.isDigit = false) := by
  refine ⟨by decide, ?_, by decide⟩
  have h1 : List.foldl (aggStep [1, 2]) ⟨0, 0, some 0⟩
      [((1 : ℚ), sampleKB)] = ⟨0 + 50, 1, some (0 + 10)⟩ := rfl
  unfold updateAggregateProgress
  dsimp only
  rw [h1]
  norm_num

end TubeTune
